import Mathlib

/-!
# Verification of the GAIA RSS ingestion and deduplication pipeline

Shallow embedding of `backend/python/pipeline/rss_processor_enhanced.py`
(class `RSSProcessorEnhanced`) together with the Philippine-bounds checks of
`backend/python/citizen_reports.py` and `backend/python/utils/geocoding.py`.

Modelling conventions:
* Python floats used for coordinates, confidence scores and thresholds are
  embedded as exact rationals `ℚ`; every comparison the code performs on them
  (`<=`, `>=`) is an order comparison on values that are exactly representable,
  so the embedding is faithful on the inputs considered here.
* Timestamps (`datetime.utcnow()`, `detected_at`, `validated_at`) are embedded
  as integer epoch seconds.
* The external collaborators (classifier, Geo-NER, Supabase store, feedparser)
  are oracle functions supplied in an `Env` record; fallible store lookups
  return `Except`.
* Python truthiness of optional floats (`loc.get('latitude') and ...`) is
  modelled exactly: `None` and `0.0` are falsy.
-/

/-! ## Python string primitives used by the pipeline -/

/-- ASCII lower-casing of one character; models Python `str.lower` on the
ASCII range (the pipeline's normalization; non-ASCII case mapping is not
exercised by any claim). -/
def pyLowerChar (c : Char) : Char :=
  if 'A' ≤ c ∧ c ≤ 'Z' then Char.ofNat (c.toNat + 32) else c

/-- Python `str.lower`, character-wise. -/
def pyLower (s : String) : String := String.mk (s.toList.map pyLowerChar)

/-- The ASCII whitespace characters recognised by Python `str.split()` /
`str.strip()`. -/
def isPyWhitespace (c : Char) : Bool :=
  c = ' ' || c = '\t' || c = '\n' || c = '\r' || c = '\x0b' || c = '\x0c'

/-- Worker for `pySplit`: scan the characters, growing the current
(reversed) word in `acc` and emitting it at each whitespace run. -/
def pySplitGo : List Char → List Char → List (List Char)
  | [], acc => if acc.isEmpty then [] else [acc.reverse]
  | c :: rest, acc =>
    if isPyWhitespace c then
      if acc.isEmpty then pySplitGo rest []
      else acc.reverse :: pySplitGo rest []
    else pySplitGo rest (c :: acc)

/-- Python `str.split()` with no argument: split on runs of whitespace and
drop empty pieces. -/
def pySplit (s : String) : List String :=
  (pySplitGo s.toList []).map String.mk

/-- Interleave single spaces between words (Python `' '.join`). -/
def joinSpace : List (List Char) → List Char
  | [] => []
  | [g] => g
  | g :: rest => g ++ ' ' :: joinSpace rest

/-- Python `str.strip()`: remove leading and trailing whitespace. -/
def pyStrip (s : String) : String :=
  String.mk (((s.toList.dropWhile isPyWhitespace).reverse.dropWhile
    isPyWhitespace).reverse)

/-- `' '.join(s.split())` — the whitespace-collapsing normalization the
processor applies in `_clean_html` and `_generate_content_hash`. -/
def wsNormalize (s : String) : String :=
  String.mk (joinSpace (pySplitGo s.toList []))

/-- UTF-8 encoding of one character (as byte values), modelling Python
`str.encode('utf-8')`. -/
def utf8Bytes (c : Char) : List Nat :=
  let n := c.toNat
  if n < 128 then [n]
  else if n < 2048 then [192 + n / 64, 128 + n % 64]
  else if n < 65536 then [224 + n / 4096, 128 + (n / 64) % 64, 128 + n % 64]
  else [240 + n / 262144, 128 + (n / 4096) % 64, 128 + (n / 64) % 64,
        128 + n % 64]

/-- UTF-8 bytes of a string. -/
def strUtf8 (s : String) : List Nat := s.toList.flatMap utf8Bytes

/-! ## SHA-256 (`hashlib.sha256`), FIPS 180-4, over byte lists

32-bit words are natural numbers reduced mod `2^32`. -/

/-- Truncate to a 32-bit word. -/
def w32 (n : Nat) : Nat := n % 4294967296

/-- Right rotation of a 32-bit word (input assumed `< 2^32`). -/
def rotr32 (x k : Nat) : Nat :=
  Nat.lor (Nat.shiftRight x k) (w32 (Nat.shiftLeft x (32 - k)))

/-- Bitwise complement of a 32-bit word. -/
def not32 (x : Nat) : Nat := Nat.xor x 4294967295

/-- SHA-256 `Ch` function. -/
def sha256Ch (x y z : Nat) : Nat :=
  Nat.xor (Nat.land x y) (Nat.land (not32 x) z)

/-- SHA-256 `Maj` function. -/
def sha256Maj (x y z : Nat) : Nat :=
  Nat.xor (Nat.xor (Nat.land x y) (Nat.land x z)) (Nat.land y z)

/-- SHA-256 small sigma 0. -/
def smallSigma0 (x : Nat) : Nat :=
  Nat.xor (Nat.xor (rotr32 x 7) (rotr32 x 18)) (Nat.shiftRight x 3)

/-- SHA-256 small sigma 1. -/
def smallSigma1 (x : Nat) : Nat :=
  Nat.xor (Nat.xor (rotr32 x 17) (rotr32 x 19)) (Nat.shiftRight x 10)

/-- SHA-256 big sigma 0. -/
def bigSigma0 (x : Nat) : Nat :=
  Nat.xor (Nat.xor (rotr32 x 2) (rotr32 x 13)) (rotr32 x 22)

/-- SHA-256 big sigma 1. -/
def bigSigma1 (x : Nat) : Nat :=
  Nat.xor (Nat.xor (rotr32 x 6) (rotr32 x 11)) (rotr32 x 25)

/-- The 64 SHA-256 round constants. -/
def sha256K : List Nat :=
  [1116352408, 1899447441, 3049323471, 3921009573,
   961987163, 1508970993, 2453635748, 2870763221,
   3624381080, 310598401, 607225278, 1426881987,
   1925078388, 2162078206, 2614888103, 3248222580,
   3835390401, 4022224774, 264347078, 604807628,
   770255983, 1249150122, 1555081692, 1996064986,
   2554220882, 2821834349, 2952996808, 3210313671,
   3336571891, 3584528711, 113926993, 338241895,
   666307205, 773529912, 1294757372, 1396182291,
   1695183700, 1986661051, 2177026350, 2456956037,
   2730485921, 2820302411, 3259730800, 3345764771,
   3516065817, 3600352804, 4094571909, 275423344,
   430227734, 506948616, 659060556, 883997877,
   958139571, 1322822218, 1537002063, 1747873779,
   1955562222, 2024104815, 2227730452, 2361852424,
   2428436474, 2756734187, 3204031479, 3329325298]

/-- The SHA-256 initial hash value. -/
def sha256H0 : List Nat :=
  [1779033703, 3144134277, 1013904242, 2773480762,
   1359893119, 2600822924, 528734635, 1541459225]

/-- Pad a byte message to a multiple of 64 bytes: append `0x80`, zero bytes,
and the 8-byte big-endian bit length. -/
def padMessage (msg : List Nat) : List Nat :=
  let L := msg.length
  let z := (119 - (L % 64)) % 64
  msg ++ [128] ++ List.replicate z 0 ++
    (List.range 8).map (fun i => (Nat.shiftRight (8 * L) (8 * (7 - i))) % 256)

/-- Group bytes into big-endian 32-bit words. -/
def bytesToWords : List Nat → List Nat
  | b0 :: b1 :: b2 :: b3 :: rest =>
      (((b0 * 256 + b1) * 256 + b2) * 256 + b3) :: bytesToWords rest
  | _ => []

/-- Group a word list into 16-word blocks. -/
def chunks16 : List Nat → List (List Nat)
  | w0 :: w1 :: w2 :: w3 :: w4 :: w5 :: w6 :: w7 ::
    w8 :: w9 :: w10 :: w11 :: w12 :: w13 :: w14 :: w15 :: rest =>
      [w0, w1, w2, w3, w4, w5, w6, w7,
       w8, w9, w10, w11, w12, w13, w14, w15] :: chunks16 rest
  | _ => []

/-- Extend a 16-word block to the 64-word message schedule. -/
def sha256Schedule (block : List Nat) : Array Nat :=
  (List.range 48).foldl
    (fun arr i =>
      let t := i + 16
      arr.push (w32 (arr.getD (t - 16) 0 + smallSigma0 (arr.getD (t - 15) 0) +
        arr.getD (t - 7) 0 + smallSigma1 (arr.getD (t - 2) 0))))
    block.toArray

/-- One SHA-256 compression step (round `t`). -/
def sha256Round (w : Array Nat)
    (s : Nat × Nat × Nat × Nat × Nat × Nat × Nat × Nat) (t : Nat) :
    Nat × Nat × Nat × Nat × Nat × Nat × Nat × Nat :=
  let (a, b, c, d, e, f, g, h) := s
  let t1 := w32 (h + bigSigma1 e + sha256Ch e f g + sha256K.getD t 0 + w.getD t 0)
  let t2 := w32 (bigSigma0 a + sha256Maj a b c)
  (w32 (t1 + t2), a, b, c, w32 (d + t1), e, f, g)

/-- Compress one 16-word block into the running hash (8 words). -/
def compressBlock (H : List Nat) (block : List Nat) : List Nat :=
  let w := sha256Schedule block
  let init := (H.getD 0 0, H.getD 1 0, H.getD 2 0, H.getD 3 0,
               H.getD 4 0, H.getD 5 0, H.getD 6 0, H.getD 7 0)
  let s := (List.range 64).foldl (sha256Round w) init
  [w32 (H.getD 0 0 + s.1), w32 (H.getD 1 0 + s.2.1),
   w32 (H.getD 2 0 + s.2.2.1), w32 (H.getD 3 0 + s.2.2.2.1),
   w32 (H.getD 4 0 + s.2.2.2.2.1), w32 (H.getD 5 0 + s.2.2.2.2.2.1),
   w32 (H.getD 6 0 + s.2.2.2.2.2.2.1), w32 (H.getD 7 0 + s.2.2.2.2.2.2.2)]

/-- SHA-256 digest of a byte message, as 8 words. -/
def sha256Words (msg : List Nat) : List Nat :=
  (chunks16 (bytesToWords (padMessage msg))).foldl compressBlock sha256H0

/-- Lower-case hex digit for a nibble. -/
def hexDigitChar (n : Nat) : Char :=
  if n < 10 then Char.ofNat (48 + n) else Char.ofNat (87 + n)

/-- 8-hex-digit big-endian rendering of a 32-bit word. -/
def hexWord32 (x : Nat) : List Char :=
  (List.range 8).map (fun i => hexDigitChar ((Nat.shiftRight x (4 * (7 - i))) % 16))

/-- `hashlib.sha256(...).hexdigest()`: the 64-character lower-case hex
digest of a byte message. -/
def sha256Hex (msg : List Nat) : String :=
  String.mk ((sha256Words msg).flatMap hexWord32)

/-! ## Data model of the pipeline -/

/-- An extracted location as produced by the Geo-NER collaborator and consumed
by the pipeline (`latitude`/`longitude` may be absent; Python treats `None`
and `0.0` as falsy). -/
structure Location where
  location_name : String
  latitude : Option ℚ
  longitude : Option ℚ
  province : String
  city : String
deriving DecidableEq

/-- Result of `classifier.classify(text, threshold)`. -/
structure Classification where
  is_hazard : Bool
  hazard_type : String
  score : ℚ
deriving DecidableEq

/-- A feed entry as consumed by `_extract_content` (title/summary/body,
link, pre-parsed publication timestamp). -/
structure Entry where
  title : String
  description : String
  content : String
  link : String
  published : Option Int
deriving DecidableEq

/-- Output of `_extract_content`. -/
structure ContentData where
  title : String
  description : String
  content : String
  text : String
deriving DecidableEq

/-- A parsed feed: the list of entries (`feed.entries`). -/
structure Feed where
  entries : List Entry
deriving DecidableEq

/-- The record inserted into `gaia.hazards` by `_save_hazard_to_db`
(`hazard_data` dict, lines 581-603). -/
structure HazardRow where
  hazard_type : String
  severity : Option String
  status : String
  locationPoint : String
  latitude : ℚ
  longitude : ℚ
  location_name : String
  admin_division : String
  confidence_score : ℚ
  model_version : String
  source_type : String
  source_url : String
  source_title : String
  source_content : String
  source_published_at : Option Int
  validated : Bool
  validated_at : Option Int
  validation_notes : Option String
  detected_at : Int
  content_hash : String
  source : String
deriving DecidableEq

/-- The per-hazard summary appended to `hazards_saved` in `process_feed`. -/
structure HazardSummary where
  id : String
  title : String
  hazard_type : String
  confidence_score : ℚ
  location : Option Location
deriving DecidableEq

/-- External collaborators: AI models, feed fetching/parsing, the Supabase
store, and the current UTC time.  Fallible store operations return
`Except Unit` (an exception carries no information the pipeline uses). -/
structure Env where
  classify : String → ℚ → Classification
  extractLocations : String → List Location
  fetchFeed : String → Except String Feed
  fetchConfig : Except Unit (List (String × ℚ))
  selectIdByUrl : String → Except Unit (List String)
  selectIdByHashSince : String → Int → Except Unit (List String)
  rpcNearbyHazards : ℚ → ℚ → ℚ → Nat → Except Unit (List String)
  insertHazard : HazardRow → Except Unit (List String)
  modelVersion : String
  now : Int

/-- The `RSSProcessorEnhanced.__init__` parameters. -/
structure Config where
  classificationThreshold : ℚ
  duplicateTimeWindowHours : Nat
deriving DecidableEq

/-- The constructor defaults (`classification_threshold=0.5`,
`duplicate_time_window_hours=48`), as used by the module-level
`rss_processor_enhanced` instance. -/
def defaultConfig : Config :=
  { classificationThreshold := mkRat 1 2, duplicateTimeWindowHours := 48 }

/-- The `self.stats` counters. -/
structure Stats where
  total_processed : Nat
  total_stored : Nat
  duplicates_detected : Nat
  errors : Nat
deriving DecidableEq

/-- The zeroed statistics set in `__init__` and at the start of
`process_all_feeds`. -/
def initStats : Stats :=
  { total_processed := 0, total_stored := 0, duplicates_detected := 0,
    errors := 0 }

/-- The cached confidence thresholds (`_confidence_threshold_rss`,
`_confidence_threshold_citizen`), `none` while unfetched. -/
structure Cache where
  thrRss : Option ℚ
  thrCitizen : Option ℚ
deriving DecidableEq

/-- The mutable processor state: statistics and threshold cache. -/
structure PState where
  stats : Stats
  cache : Cache
deriving DecidableEq

/-! ## Content extraction and hashing -/

/-- `_clean_html`: the BeautifulSoup pass strips markup (external library,
identity on tag-free text as exercised here); the visible normalization is
`' '.join(text.split())`, and the empty string is returned unchanged. -/
def cleanHtml (s : String) : String :=
  if s = "" then "" else wsNormalize s

/-- `_extract_content`: clean description and body, build
`"{title}. {description_clean} {content_clean}".strip()`. -/
def extractContent (e : Entry) : ContentData :=
  let dClean := cleanHtml e.description
  let cClean := cleanHtml e.content
  { title := e.title
    description := dClean
    content := cClean
    text := pyStrip (e.title ++ ". " ++ dClean ++ " " ++ cClean) }

/-- `_generate_content_hash`: SHA-256 hex digest of the lower-cased,
whitespace-collapsed concatenation of title and description. -/
def generateContentHash (cd : ContentData) : String :=
  sha256Hex (strUtf8 (wsNormalize (pyLower (cd.title ++ cd.description))))

/-! ## Philippine boundary checks -/

/-- The coordinate acceptance test of `_save_hazard_to_db` (line 547):
`4.0 <= lat <= 22.0 and 116.0 <= lng <= 127.0`. -/
def rssBoundsOk (lat lng : ℚ) : Bool :=
  decide (4 ≤ lat ∧ lat ≤ 22 ∧ 116 ≤ lng ∧ lng ≤ 127)

/-- The coordinate acceptance test of the citizen-report submission endpoint
(`citizen_reports.py` line 411): `4 <= lat <= 21 and 116 <= lng <= 127`. -/
def citizenBoundsOk (lat lng : ℚ) : Bool :=
  decide (4 ≤ lat ∧ lat ≤ 21 ∧ 116 ≤ lng ∧ lng ≤ 127)

/-- `PH_LAT_MIN` from `utils/geocoding.py`. -/
def PH_LAT_MIN : ℚ := 4
/-- `PH_LAT_MAX` from `utils/geocoding.py`. -/
def PH_LAT_MAX : ℚ := 21
/-- `PH_LON_MIN` from `utils/geocoding.py`. -/
def PH_LON_MIN : ℚ := 116
/-- `PH_LON_MAX` from `utils/geocoding.py`. -/
def PH_LON_MAX : ℚ := 127

/-- `_is_within_philippine_bounds` from `utils/geocoding.py`. -/
def isWithinPhilippineBounds (lat lon : ℚ) : Bool :=
  decide (PH_LAT_MIN ≤ lat ∧ lat ≤ PH_LAT_MAX ∧ PH_LON_MIN ≤ lon ∧ lon ≤ PH_LON_MAX)

/-! ## Confidence thresholds (`_get_confidence_thresholds`) -/

/-- The hardcoded RSS default `0.70` (written as an explicit fraction). -/
def defaultRssThreshold : ℚ := mkRat 7 10

/-- The hardcoded citizen default `0.50` (written as an explicit fraction). -/
def defaultCitizenThreshold : ℚ := mkRat 1 2

/-- `_get_confidence_thresholds`: return the cached pair if both values are
cached; otherwise fetch `system_config`, overwrite from the fetched rows
(later rows win, as the Python loop assigns in order), substitute the
hardcoded defaults `0.70`/`0.50` for still-missing values and cache the
result; on fetch failure return `(0.70, 0.50)` leaving the cache untouched.
Float-parsing of `config_value` is folded into the fetch result. -/
def getThresholds (env : Env) (c : Cache) : (ℚ × ℚ) × Cache :=
  match c.thrRss, c.thrCitizen with
  | some r, some t => ((r, t), c)
  | _, _ =>
    match env.fetchConfig with
    | .error _ => ((defaultRssThreshold, defaultCitizenThreshold), c)
    | .ok data =>
      let r1 := data.foldl
        (fun acc p => if p.1 = "confidence_threshold_rss" then some p.2 else acc)
        c.thrRss
      let t1 := data.foldl
        (fun acc p => if p.1 = "confidence_threshold_citizen" then some p.2 else acc)
        c.thrCitizen
      let r2 := r1.getD defaultRssThreshold
      let t2 := t1.getD defaultCitizenThreshold
      ((r2, t2), { thrRss := some r2, thrCitizen := some t2 })

/-! ## Duplicate detection (`_check_duplicate`) -/

/-- Python truthiness of an optional float: `None` and `0.0` are falsy. -/
def truthyCoord : Option ℚ → Bool
  | none => false
  | some x => decide (x ≠ 0)

/-- The body of `_check_duplicate`'s `try` block: strategy 1 (exact
`source_url` match, only when the URL is non-empty), then strategy 2
(content-hash match with `detected_at` at least `now - window`), then
strategy 3 (PostGIS `get_nearby_hazards` with a 5 km radius and the same
window, only when the primary location carries truthy coordinates).
Each strategy short-circuits with `(true, first id)`; an erroring lookup
aborts with `.error`. -/
def checkDuplicateE (cfg : Config) (env : Env) (url : String)
    (cd : ContentData) (location : Option Location) :
    Except Unit (Bool × Option String) :=
  let s1 : Except Unit (Option String) :=
    if url = "" then .ok none
    else
      match env.selectIdByUrl url with
      | .error er => .error er
      | .ok [] => .ok none
      | .ok (id :: _) => .ok (some id)
  match s1 with
  | .error er => .error er
  | .ok (some id) => .ok (true, some id)
  | .ok none =>
    let contentHash := generateContentHash cd
    let timeThreshold := env.now - (cfg.duplicateTimeWindowHours : Int) * 3600
    match env.selectIdByHashSince contentHash timeThreshold with
    | .error er => .error er
    | .ok (id :: _) => .ok (true, some id)
    | .ok [] =>
      match location with
      | some l =>
        match l.latitude, l.longitude with
        | some lat, some lng =>
          if lat ≠ 0 ∧ lng ≠ 0 then
            match env.rpcNearbyHazards lat lng 5 cfg.duplicateTimeWindowHours with
            | .error er => .error er
            | .ok (hid :: _) => .ok (true, some hid)
            | .ok [] => .ok (false, none)
          else .ok (false, none)
        | _, _ => .ok (false, none)
      | none => .ok (false, none)

/-- `_check_duplicate`: the `try`/`except` wrapper — any lookup failure is
caught and the item is treated as not a duplicate. -/
def checkDuplicate (cfg : Config) (env : Env) (url : String)
    (cd : ContentData) (location : Option Location) : Bool × Option String :=
  match checkDuplicateE cfg env url cd location with
  | .ok r => r
  | .error _ => (false, none)

/-! ## Persistence (`_save_hazard_to_db`) -/

/-- The first location with truthy latitude and longitude
(`primary_location` selection loop, lines 533-537). -/
def firstUsableLoc : List Location → Option Location
  | [] => none
  | l :: rest =>
    if truthyCoord l.latitude && truthyCoord l.longitude then some l
    else firstUsableLoc rest

/-- The classifier-output → database-enum mapping (lines 555-566). -/
def hazardTypeMapping : List (String × String) :=
  [("flooding", "flood"), ("fire", "fire"), ("earthquake", "earthquake"),
   ("typhoon", "typhoon"), ("landslide", "landslide"),
   ("volcanic eruption", "volcanic_eruption"), ("drought", "drought"),
   ("tsunami", "tsunami"), ("storm surge", "storm_surge"),
   ("tornado", "tornado")]

/-- `hazard_type_mapping.get(classification['hazard_type'].lower(), 'other')`. -/
def mapHazardType (t : String) : String :=
  (((hazardTypeMapping.filter (fun p => p.1 = pyLower t)).head?).map
    (fun p => p.2)).getD "other"

/-- The row-construction part of `_save_hazard_to_db` (lines 532-603):
pick the primary location, reject coordinates outside the box
`[4, 22] × [116, 127]`, compute the content hash, map the hazard type,
fetch the thresholds and decide auto-validation, and assemble the
`hazard_data` record.  Returns `none` (nothing inserted) when rejected,
together with the possibly-updated threshold cache. -/
def buildHazardRow (env : Env) (c : Cache) (e : Entry) (cd : ContentData)
    (cls : Classification) (locations : List Location) (feedUrl : String) :
    Option HazardRow × Cache :=
  match firstUsableLoc locations with
  | none => (none, c)
  | some pl =>
    let lat := pl.latitude.getD 0
    let lng := pl.longitude.getD 0
    if rssBoundsOk lat lng then
      let contentHash := generateContentHash cd
      let dbType := mapHazardType cls.hazard_type
      match getThresholds env c with
      | ((rssThr, _), c2) =>
        let autoValidated := decide (rssThr ≤ cls.score)
        (some {
          hazard_type := dbType
          severity := none
          status := "active"
          locationPoint := "POINT(" ++ toString lng ++ " " ++ toString lat ++ ")"
          latitude := lat
          longitude := lng
          location_name := pl.location_name
          admin_division := if pl.province = "" then pl.city else pl.province
          confidence_score := cls.score
          model_version := env.modelVersion
          source_type := "rss"
          source_url := e.link
          source_title := cd.title
          source_content := String.mk (cd.text.toList.take 1000)
          source_published_at := e.published
          validated := autoValidated
          validated_at := if autoValidated then some env.now else none
          validation_notes := if autoValidated then
              some ("Auto-validated (confidence " ++ toString cls.score ++
                " >= " ++ toString rssThr ++ ")")
            else none
          detected_at := env.now
          content_hash := contentHash
          source := feedUrl }, c2)
    else (none, c)

/-- `_save_hazard_to_db`: build the row and insert it; a failed or empty
insert, a rejected candidate, or an exception yields `none`. -/
def saveHazardToDb (env : Env) (c : Cache) (e : Entry) (cd : ContentData)
    (cls : Classification) (locations : List Location) (feedUrl : String) :
    Option String × Cache :=
  match buildHazardRow env c e cd cls locations feedUrl with
  | (none, c2) => (none, c2)
  | (some row, c2) =>
    match env.insertHazard row with
    | .ok (id :: _) => (some id, c2)
    | _ => (none, c2)

/-! ## Per-entry processing (`process_feed` loop body) -/

/-- The fate of a single feed entry inside `process_feed`'s loop. -/
inductive EntryOutcome where
  | skippedEmpty : EntryOutcome
  | notHazard : EntryOutcome
  | noLocations : EntryOutcome
  | duplicate : Option String → EntryOutcome
  | saved : HazardSummary → EntryOutcome
  | saveFailed : EntryOutcome
deriving DecidableEq

/-- The body of the per-entry `try` block (lines 211-273): extract content,
skip blank text, classify, extract locations, dedup-check, save. -/
def processEntry (cfg : Config) (env : Env) (c : Cache) (e : Entry)
    (feedUrl : String) : EntryOutcome × Cache :=
  let cd := extractContent e
  if pyStrip cd.text = "" then (.skippedEmpty, c)
  else
    let cls := env.classify cd.text cfg.classificationThreshold
    if cls.is_hazard then
      let locations := env.extractLocations cd.text
      match locations with
      | [] => (.noLocations, c)
      | l0 :: _ =>
        match checkDuplicate cfg env e.link cd (some l0) with
        | (true, dupId) => (.duplicate dupId, c)
        | (false, _) =>
          match saveHazardToDb env c e cd cls locations feedUrl with
          | (some id, c2) =>
              (.saved { id := id, title := cd.title,
                        hazard_type := cls.hazard_type,
                        confidence_score := cls.score,
                        location := locations.head? }, c2)
          | (none, c2) => (.saveFailed, c2)
    else (.notHazard, c)

/-- How one entry's outcome updates `self.stats` (duplicate → line 243,
saved → line 265, failed save → line 269). -/
def applyStats (out : EntryOutcome) (s : Stats) : Stats :=
  match out with
  | .duplicate _ =>
      { s with duplicates_detected := s.duplicates_detected + 1 }
  | .saved _ => { s with total_stored := s.total_stored + 1 }
  | .saveFailed => { s with errors := s.errors + 1 }
  | _ => s

/-! ## Per-feed processing (`process_feed`) and the run (`process_all_feeds`) -/

/-- The per-feed counters accumulated during one `process_feed` call. -/
structure FeedAcc where
  items_processed : Nat
  items_added : Nat
  duplicates_detected : Nat
  hazards_saved : List HazardSummary
deriving DecidableEq

/-- How one entry's outcome updates the per-feed counters. -/
def applyAcc (out : EntryOutcome) (a : FeedAcc) : FeedAcc :=
  match out with
  | .duplicate _ =>
      { a with duplicates_detected := a.duplicates_detected + 1 }
  | .saved s =>
      { a with items_added := a.items_added + 1,
               hazards_saved := a.hazards_saved ++ [s] }
  | _ => a

/-- The structured result `process_feed` returns (wall-clock
`processing_time` is not modelled). -/
structure FeedResult where
  feed_url : String
  status : String
  items_processed : Nat
  items_added : Nat
  duplicates_detected : Nat
  hazards_saved : List HazardSummary
  error_message : Option String
deriving DecidableEq

/-- One iteration of `process_feed`'s entry loop: count the entry, then run
the guarded body and apply its outcome to the feed counters and run
statistics. -/
def entryStep (cfg : Config) (env : Env) (feedUrl : String)
    (p : FeedAcc × PState) (e : Entry) : FeedAcc × PState :=
  let acc := { p.1 with items_processed := p.1.items_processed + 1 }
  let st := { p.2 with stats :=
    { p.2.stats with total_processed := p.2.stats.total_processed + 1 } }
  match processEntry cfg env st.cache e feedUrl with
  | (out, c2) =>
      (applyAcc out acc, { stats := applyStats out st.stats, cache := c2 })

/-- `process_feed`: fetch and parse the feed; on failure return the
structured error result (and count one error); on success run every entry
through the loop and return the success result. -/
def processFeed (cfg : Config) (env : Env) (st : PState) (feedUrl : String) :
    FeedResult × PState :=
  match env.fetchFeed feedUrl with
  | .error msg =>
      ({ feed_url := feedUrl, status := "error", items_processed := 0,
         items_added := 0, duplicates_detected := 0, hazards_saved := [],
         error_message := some msg },
       { st with stats := { st.stats with errors := st.stats.errors + 1 } })
  | .ok feed =>
      match feed.entries.foldl (entryStep cfg env feedUrl)
          ({ items_processed := 0, items_added := 0,
             duplicates_detected := 0, hazards_saved := [] }, st) with
      | (acc, st2) =>
          ({ feed_url := feedUrl, status := "success",
             items_processed := acc.items_processed,
             items_added := acc.items_added,
             duplicates_detected := acc.duplicates_detected,
             hazards_saved := acc.hazards_saved,
             error_message := none }, st2)

/-- The hard-coded default feed list (`DEFAULT_FEEDS`). -/
def DEFAULT_FEEDS : List String :=
  ["https://www.gmanetwork.com/news/rss/news/",
   "https://www.gmanetwork.com/news/rss/publicaffairs/",
   "https://newsinfo.inquirer.net/category/regions/feed",
   "https://www.rappler.com/nation/rss"]

/-- One iteration of `process_all_feeds`' loop: process the feed from the
current state and append its result. -/
def feedStep (cfg : Config) (env : Env) (p : List FeedResult × PState)
    (u : String) : List FeedResult × PState :=
  match processFeed cfg env p.2 u with
  | (r, st2) => (p.1 ++ [r], st2)

/-- `process_all_feeds`: substitute the default feeds when none are
configured, reset the statistics, and process every feed sequentially,
collecting the per-feed results. -/
def processAllFeeds (cfg : Config) (env : Env) (st : PState)
    (feeds : List String) : List FeedResult × PState :=
  let feeds2 := if feeds = [] then DEFAULT_FEEDS else feeds
  let st1 : PState := { st with stats := initStats }
  feeds2.foldl (feedStep cfg env) ([], st1)

/-! ## Statistics (`get_statistics`) -/

/-- Python `round(x, 2)` on an exact value: round `x * 100` to the nearest
integer, ties to even, and divide by 100. -/
def roundHalfEven (q : ℚ) : ℤ :=
  let f := ⌊q⌋
  let r := q - f
  if r < 1 / 2 then f
  else if 1 / 2 < r then f + 1
  else if f % 2 = 0 then f else f + 1

/-- Round to two decimal places, ties to even (Python `round(x, 2)`). -/
def pyRound2 (q : ℚ) : ℚ := (roundHalfEven (q * 100) : ℚ) / 100

/-- The dict returned by `get_statistics`. -/
structure StatsReport where
  total_processed : Nat
  total_stored : Nat
  duplicates_detected : Nat
  errors : Nat
  duplicate_rate_percent : ℚ
  error_rate_percent : ℚ
deriving DecidableEq

/-- `get_statistics`: the four raw counters plus the two derived rates,
which are `0` when nothing was processed and otherwise the percentage
ratios rounded to two decimals. -/
def getStatistics (s : Stats) : StatsReport :=
  let total := s.total_processed
  let duplicateRate : ℚ :=
    if total = 0 then 0 else (s.duplicates_detected : ℚ) / (total : ℚ) * 100
  let errorRate : ℚ :=
    if total = 0 then 0 else (s.errors : ℚ) / (total : ℚ) * 100
  { total_processed := s.total_processed
    total_stored := s.total_stored
    duplicates_detected := s.duplicates_detected
    errors := s.errors
    duplicate_rate_percent := pyRound2 duplicateRate
    error_rate_percent := pyRound2 errorRate }

/-! ## Concrete fixtures (environments and inputs used in closed theorems)

All rational constants are written with `mkRat` so that concrete runs
evaluate by kernel reduction. -/

/-- A location at 21.5 N, 120 E — north of `PH_LAT_MAX = 21` but inside the
RSS processor's own acceptance box. -/
def locBatanesNorth : Location :=
  { location_name := "North of Batanes", latitude := some (mkRat 43 2),
    longitude := some 120, province := "Batanes", city := "" }

/-- Manila (14.5995 N, 120.9842 E). -/
def locManila : Location :=
  { location_name := "Manila", latitude := some (mkRat 145995 10000),
    longitude := some (mkRat 1209842 10000), province := "Metro Manila",
    city := "Manila" }

/-- A Geo-NER hit that carries no usable coordinates. -/
def locNoCoords : Location :=
  { location_name := "Unknown place", latitude := none, longitude := none,
    province := "", city := "" }

/-- A hazard-positive classification with score 0.9. -/
def clsFlood09 : Classification :=
  { is_hazard := true, hazard_type := "Flooding", score := mkRat 9 10 }

/-- A hazard-positive classification whose score is exactly the default RSS
threshold 0.70. -/
def clsFlood07 : Classification :=
  { is_hazard := true, hazard_type := "Flooding", score := mkRat 7 10 }

/-- A sample feed entry. -/
def entryFlood : Entry :=
  { title := "Flood in Batanes",
    description := "Severe flooding reported in the far north.",
    content := "", link := "http://news.example/a", published := none }

/-- A benign environment: nothing classified as hazard, no stored hazards,
every lookup succeeds, inserts return id `"HZ-1"`, thresholds stored at the
defaults. -/
def baseEnv : Env :=
  { classify := fun _ _ => { is_hazard := false, hazard_type := "", score := 0 }
    extractLocations := fun _ => []
    fetchFeed := fun _ => .ok { entries := [] }
    fetchConfig := .ok [("confidence_threshold_rss", mkRat 7 10),
                        ("confidence_threshold_citizen", mkRat 1 2)]
    selectIdByUrl := fun _ => .ok []
    selectIdByHashSince := fun _ _ => .ok []
    rpcNearbyHazards := fun _ _ _ _ => .ok []
    insertHazard := fun _ => .ok ["HZ-1"]
    modelVersion := "facebook/bart-large-mnli"
    now := 1700000000 }

/-- Environment for the boundary scenario: the classifier reports a hazard
and Geo-NER resolves it to 21.5 N. -/
def envBoundary : Env :=
  { baseEnv with classify := fun _ _ => clsFlood09,
                 extractLocations := fun _ => [locBatanesNorth] }

/-- Environment where the classifier reports a hazard but the only
extracted location has no usable coordinates; the feed has one entry. -/
def envNoCoords : Env :=
  { baseEnv with classify := fun _ _ => clsFlood09,
                 extractLocations := fun _ => [locNoCoords],
                 fetchFeed := fun _ => .ok { entries := [entryFlood] } }

/-- Environment where the classifier reports a hazard but Geo-NER extracts
no locations at all. -/
def envHazNoLoc : Env := { baseEnv with classify := fun _ _ => clsFlood09 }

/-- Environment whose configuration fetch fails. -/
def envCfgFail : Env := { baseEnv with fetchConfig := .error () }

/-- Configuration rows holding (0.9, 0.6). -/
def cfgRows96 : List (String × ℚ) :=
  [("confidence_threshold_rss", mkRat 9 10),
   ("confidence_threshold_citizen", mkRat 3 5)]

/-- Configuration rows holding (0.8, 0.6). -/
def cfgRows86 : List (String × ℚ) :=
  [("confidence_threshold_rss", mkRat 4 5),
   ("confidence_threshold_citizen", mkRat 3 5)]

/-- Environment whose configuration store holds (0.9, 0.6). -/
def envCfg96 : Env := { baseEnv with fetchConfig := .ok cfgRows96 }

/-- Environment whose configuration store holds (0.8, 0.6). -/
def envCfg86 : Env := { baseEnv with fetchConfig := .ok cfgRows86 }

/-- Environment where every duplicate-detection lookup fails. -/
def envDupFail : Env :=
  { baseEnv with selectIdByUrl := fun _ => .error (),
                 selectIdByHashSince := fun _ _ => .error (),
                 rpcNearbyHazards := fun _ _ _ _ => .error () }

/-- Environment where the URL lookup matches and the later strategies
would fail if consulted. -/
def envUrlHit : Env :=
  { baseEnv with selectIdByUrl := fun _ => .ok ["DUP-URL"],
                 selectIdByHashSince := fun _ _ => .error (),
                 rpcNearbyHazards := fun _ _ _ _ => .error () }

/-- Environment where only the content-hash lookup matches. -/
def envHashHit : Env :=
  { baseEnv with selectIdByHashSince := fun _ _ => .ok ["DUP-HASH"],
                 rpcNearbyHazards := fun _ _ _ _ => .error () }

/-- Environment where only the geospatial lookup matches. -/
def envGeoHit : Env :=
  { baseEnv with rpcNearbyHazards := fun _ _ _ _ => .ok ["DUP-GEO"] }

/-- A fetcher where feed A is unreachable (404) and every other feed
parses to an empty feed. -/
def fetchFeedAB (u : String) : Except String Feed :=
  if u = "http://a.example/feed" then .error "404 Not Found"
  else .ok { entries := [] }

/-- Environment using `fetchFeedAB`. -/
def envFeedAB : Env := { baseEnv with fetchFeed := fetchFeedAB }

/-- A cache holding the default thresholds. -/
def cacheDefaults : Cache :=
  { thrRss := some (mkRat 7 10), thrCitizen := some (mkRat 1 2) }

/-- The fresh (unfetched) cache. -/
def cacheEmpty : Cache := { thrRss := none, thrCitizen := none }

/-- The row/cache pair built for the C4 boundary-score scenario: Manila
location, score exactly 0.70, thresholds cached at the defaults. -/
def c4RowPair : Option HazardRow × Cache :=
  buildHazardRow baseEnv cacheDefaults entryFlood (extractContent entryFlood)
    clsFlood07 [locManila] "http://feed.example/rss"
lemma hexWord32_length (x : Nat) : (hexWord32 x).length = 8 := by
  simp [hexWord32]

lemma flatMap_hexWord32_length (l : List Nat) :
    (l.flatMap hexWord32).length = 8 * l.length := by
  induction l with
  | nil => rfl
  | cons x t ih =>
    simp only [List.flatMap_cons, List.length_append, hexWord32_length, ih,
      List.length_cons]
    ring

lemma compressBlock_length (H bs : List Nat) :
    (compressBlock H bs).length = 8 := rfl

lemma sha256Words_length (m : List Nat) : (sha256Words m).length = 8 := by
  have key : ∀ (bs : List (List Nat)) (H : List Nat), H.length = 8 →
      (bs.foldl compressBlock H).length = 8 := by
    intro bs
    induction bs with
    | nil => intro H h; simpa using h
    | cons b t ih => intro H h; exact ih _ (compressBlock_length H b)
  exact key _ _ rfl

lemma generateContentHash_length (cd : ContentData) :
    (generateContentHash cd).length = 64 := by
  show ((sha256Words _).flatMap hexWord32).length = 64
  rw [flatMap_hexWord32_length, sha256Words_length]

/-- C8: the content hash depends only on the lower-cased,
whitespace-collapsed concatenation of title and description (hence it is
deterministic, case-insensitive and whitespace-normalized); the spec's
example pair hashes identically; and every digest has 64 characters. -/
theorem C8_content_hash_normalized :
    (∀ cd1 cd2 : ContentData,
      wsNormalize (pyLower (cd1.title ++ cd1.description)) =
        wsNormalize (pyLower (cd2.title ++ cd2.description)) →
      generateContentHash cd1 = generateContentHash cd2) ∧
    generateContentHash
        { title := "Flood in Manila", description := "", content := "",
          text := "" } =
      generateContentHash
        { title := "flood   in manila", description := "", content := "",
          text := "" } ∧
    ∀ cd : ContentData, (generateContentHash cd).length = 64 := by
  have h1 : ∀ cd1 cd2 : ContentData,
      wsNormalize (pyLower (cd1.title ++ cd1.description)) =
        wsNormalize (pyLower (cd2.title ++ cd2.description)) →
      generateContentHash cd1 = generateContentHash cd2 := by
    intro cd1 cd2 h
    unfold generateContentHash
    rw [h]
  exact ⟨h1, h1 _ _ (by decide), generateContentHash_length⟩

/-- Witness for C8: instantiating the normalization-invariance at a
concrete pair. -/
theorem C8_content_hash_normalized_witness :
    generateContentHash
        { title := "Flood", description := " in  MANILA", content := "",
          text := "" } =
      generateContentHash
        { title := "flood in manila", description := "", content := "",
          text := "" } :=
  C8_content_hash_normalized.1 _ _ (by decide)

/-- C9: because title and description are concatenated without a
separator, pairs differing in where the boundary falls collide: the hash
cannot distinguish `("Flooding", " in Manila")` from
`("Flood", "ing in Manila")`. -/
theorem C9_concat_boundary_collision :
    ("Flooding" : String) ≠ "Flood" ∧
    (" in Manila" : String) ≠ "ing in Manila" ∧
    generateContentHash
        { title := "Flooding", description := " in Manila", content := "",
          text := "" } =
      generateContentHash
        { title := "Flood", description := "ing in Manila", content := "",
          text := "" } := by
  refine ⟨by decide, by decide, ?_⟩
  show sha256Hex (strUtf8 (wsNormalize (pyLower ("Flooding" ++ " in Manila")))) =
    sha256Hex (strUtf8 (wsNormalize (pyLower ("Flood" ++ "ing in Manila"))))
  rw [show wsNormalize (pyLower ("Flooding" ++ " in Manila")) =
    wsNormalize (pyLower ("Flood" ++ "ing in Manila")) from by decide]

/-- C1 (code bug): `_save_hazard_to_db` accepts latitude 21.5 — its check
allows latitudes up to 22.0 — and persists the hazard, while the citizen
endpoint's check and the repo-wide `_is_within_philippine_bounds`
(`PH_LAT_MAX = 21.0`, exercised by the unit tests) reject it. -/
theorem C1_rss_bounds_code_bug :
    rssBoundsOk (mkRat 43 2) 120 = true ∧
    citizenBoundsOk (mkRat 43 2) 120 = false ∧
    isWithinPhilippineBounds (mkRat 43 2) 120 = false ∧
    (saveHazardToDb envBoundary cacheDefaults entryFlood
        (extractContent entryFlood) clsFlood09 [locBatanesNorth]
        "http://feed.example/rss").fst = some "HZ-1" ∧
    (buildHazardRow envBoundary cacheDefaults entryFlood
        (extractContent entryFlood) clsFlood09 [locBatanesNorth]
        "http://feed.example/rss").fst.map HazardRow.latitude =
      some (mkRat 43 2) := by
  refine ⟨by decide, by decide, by decide, rfl, rfl⟩

/-- C5: any failing lookup in `_check_duplicate` — whichever strategy it
occurs in — is caught and the item is treated as not a duplicate; the
failure never escapes. -/
theorem C5_duplicate_check_error_safe :
    ∀ (cfg : Config) (env : Env) (url : String) (cd : ContentData)
      (loc : Option Location),
      (∀ er, checkDuplicateE cfg env url cd loc = .error er →
        checkDuplicate cfg env url cd loc = (false, none)) ∧
      (url ≠ "" → env.selectIdByUrl url = .error () →
        checkDuplicate cfg env url cd loc = (false, none)) ∧
      ((url = "" ∨ env.selectIdByUrl url = .ok []) →
        env.selectIdByHashSince (generateContentHash cd)
          (env.now - (cfg.duplicateTimeWindowHours : Int) * 3600) = .error () →
        checkDuplicate cfg env url cd loc = (false, none)) ∧
      (∀ l lat lng,
        loc = some l → l.latitude = some lat → l.longitude = some lng →
        lat ≠ 0 → lng ≠ 0 →
        (url = "" ∨ env.selectIdByUrl url = .ok []) →
        env.selectIdByHashSince (generateContentHash cd)
          (env.now - (cfg.duplicateTimeWindowHours : Int) * 3600) = .ok [] →
        env.rpcNearbyHazards lat lng 5 cfg.duplicateTimeWindowHours =
          .error () →
        checkDuplicate cfg env url cd loc = (false, none)) := by
  intro cfg env url cd loc
  refine ⟨?_, ?_, ?_, ?_⟩
  · intro er h
    unfold checkDuplicate
    rw [h]
  · intro hu hq
    unfold checkDuplicate checkDuplicateE
    simp [hu, hq]
  · intro hu hq
    unfold checkDuplicate checkDuplicateE
    rcases hu with h | h
    · subst h; simp [hq]
    · by_cases hurl : url = ""
      · subst hurl; simp [hq]
      · simp [hurl, h, hq]
  · intro l lat lng hloc hlat hlng hlat0 hlng0 hu hq hrpc
    subst hloc
    unfold checkDuplicate checkDuplicateE
    rcases hu with h | h
    · subst h; simp [hq, hlat, hlng, hlat0, hlng0, hrpc]
    · by_cases hurl : url = ""
      · subst hurl; simp [hq, hlat, hlng, hlat0, hlng0, hrpc]
      · simp [hurl, h, hq, hlat, hlng, hlat0, hlng0, hrpc]

/-- Witness for C5: with every lookup unreachable, the checker still
answers (false, none). -/
theorem C5_duplicate_check_error_safe_witness :
    checkDuplicate defaultConfig envDupFail "http://news.example/a"
      (extractContent entryFlood) (some locManila) = (false, none) :=
  (C5_duplicate_check_error_safe defaultConfig envDupFail
    "http://news.example/a" (extractContent entryFlood)
    (some locManila)).2.1 (by decide) rfl

/-- C7 fails as stated: when the first call's fetch fails nothing is
cached, and the second call consults configuration storage again — two
different stores give the second call different answers. -/
theorem C7_counterexample :
    (getThresholds envCfgFail cacheEmpty).fst =
      (defaultRssThreshold, defaultCitizenThreshold) ∧
    (getThresholds envCfgFail cacheEmpty).snd = cacheEmpty ∧
    (getThresholds envCfg96 (getThresholds envCfgFail cacheEmpty).snd).fst =
      (mkRat 9 10, mkRat 3 5) ∧
    (getThresholds envCfg86 (getThresholds envCfgFail cacheEmpty).snd).fst =
      (mkRat 4 5, mkRat 3 5) := by
  refine ⟨rfl, rfl, by decide, by decide⟩

/-- Overwriting fold used by `_get_confidence_thresholds` returns `none`
when no row carries the key. -/
lemma foldl_config_none (data : List (String × ℚ)) (k : String)
    (h : ∀ p ∈ data, p.1 ≠ k) :
    data.foldl (fun acc p => if p.1 = k then some p.2 else acc) none =
      none := by
  induction data with
  | nil => rfl
  | cons q t ih =>
    simp only [List.foldl_cons]
    rw [if_neg (h q (by simp))]
    exact ih (fun p hp => h p (by simp [hp]))

/-- Reduction of `_get_confidence_thresholds` on a successful fetch with an
incomplete cache. -/
lemma getThresholds_fetch_ok (env : Env) (cr ct : Option ℚ)
    (data : List (String × ℚ)) (hne : cr = none ∨ ct = none)
    (hfetch : env.fetchConfig = .ok data) :
    getThresholds env { thrRss := cr, thrCitizen := ct } =
      (((data.foldl
            (fun acc p =>
              if p.1 = "confidence_threshold_rss" then some p.2 else acc)
            cr).getD defaultRssThreshold,
        (data.foldl
            (fun acc p =>
              if p.1 = "confidence_threshold_citizen" then some p.2 else acc)
            ct).getD defaultCitizenThreshold),
       { thrRss := some ((data.foldl
            (fun acc p =>
              if p.1 = "confidence_threshold_rss" then some p.2 else acc)
            cr).getD defaultRssThreshold),
         thrCitizen := some ((data.foldl
            (fun acc p =>
              if p.1 = "confidence_threshold_citizen" then some p.2 else acc)
            ct).getD defaultCitizenThreshold) }) := by
  rcases cr with _ | r <;> rcases ct with _ | t <;>
    simp only [getThresholds, hfetch]
  exact absurd hne (by simp)

/-- C7 (amended): with both values cached the call returns the cached pair
untouched, for any store; otherwise it fetches — a failed fetch yields the
defaults (0.70, 0.50) without caching, while a successful fetch caches both
values (missing keys replaced by the defaults) so that every later call
returns the cached pair regardless of the store. -/
theorem C7_thresholds :
    ∀ (env env2 : Env) (c : Cache),
      (∀ r t, c.thrRss = some r → c.thrCitizen = some t →
        getThresholds env c = ((r, t), c)) ∧
      (c.thrRss = none ∨ c.thrCitizen = none → env.fetchConfig = .error () →
        getThresholds env c =
          ((defaultRssThreshold, defaultCitizenThreshold), c)) ∧
      (∀ data, c.thrRss = none ∨ c.thrCitizen = none →
        env.fetchConfig = .ok data →
        ∃ r2 t2, getThresholds env c =
            ((r2, t2), { thrRss := some r2, thrCitizen := some t2 }) ∧
          getThresholds env2 { thrRss := some r2, thrCitizen := some t2 } =
            ((r2, t2), { thrRss := some r2, thrCitizen := some t2 })) ∧
      (∀ data, c = cacheEmpty → env.fetchConfig = .ok data →
        ((∀ p ∈ data, p.1 ≠ "confidence_threshold_rss") →
          (getThresholds env c).fst.fst = defaultRssThreshold) ∧
        ((∀ p ∈ data, p.1 ≠ "confidence_threshold_citizen") →
          (getThresholds env c).fst.snd = defaultCitizenThreshold)) := by
  intro env env2 c
  obtain ⟨cr, ct⟩ := c
  refine ⟨?_, ?_, ?_, ?_⟩
  · intro r t hr ht
    dsimp only at hr ht
    subst hr; subst ht
    rfl
  · intro hne hfetch
    rcases cr with _ | r <;> rcases ct with _ | t <;>
      simp only [getThresholds, hfetch]
    exact absurd hne (by simp)
  · intro data hne hfetch
    exact ⟨_, _, getThresholds_fetch_ok env cr ct data hne hfetch, rfl⟩
  · intro data hc hfetch
    injection hc with hc1 hc2
    subst hc1; subst hc2
    constructor
    · intro hnone
      rw [getThresholds_fetch_ok env none none data (Or.inl rfl) hfetch]
      rw [foldl_config_none data _ hnone]
      rfl
    · intro hnone
      rw [getThresholds_fetch_ok env none none data (Or.inl rfl) hfetch]
      rw [foldl_config_none data _ hnone]
      rfl

/-- Witness for C7: a fully-cached state returns the cached pair for any
store contents. -/
theorem C7_thresholds_witness :
    getThresholds envCfgFail
        { thrRss := some (mkRat 9 10), thrCitizen := some (mkRat 3 5) } =
      ((mkRat 9 10, mkRat 3 5),
        { thrRss := some (mkRat 9 10), thrCitizen := some (mkRat 3 5) }) :=
  (C7_thresholds envCfgFail baseEnv
    { thrRss := some (mkRat 9 10), thrCitizen := some (mkRat 3 5) }).1
    (mkRat 9 10) (mkRat 3 5) rfl rfl

/-- Ties-to-even rounding moves a value by at most 1/2. -/
lemma roundHalfEven_close (x : ℚ) : |(roundHalfEven x : ℚ) - x| ≤ 1 / 2 := by
  have h0 : (⌊x⌋ : ℚ) ≤ x := Int.floor_le x
  have h1 : x < ⌊x⌋ + 1 := Int.lt_floor_add_one x
  simp only [roundHalfEven]
  split_ifs with hA hB hC <;> rw [abs_le] <;> push_cast <;>
    constructor <;> linarith

/-- `round(x, 2)` moves a value by at most 1/200. -/
lemma pyRound2_close (q : ℚ) : |pyRound2 q - q| ≤ 1 / 200 := by
  have h := roundHalfEven_close (q * 100)
  unfold pyRound2
  have hrw : (roundHalfEven (q * 100) : ℚ) / 100 - q =
      ((roundHalfEven (q * 100) : ℚ) - q * 100) / 100 := by ring
  rw [hrw, abs_div]
  rw [show |(100 : ℚ)| = 100 from by norm_num]
  linarith

/-- `round(0, 2) = 0`. -/
lemma pyRound2_zero : pyRound2 0 = 0 := by
  have h : roundHalfEven ((0 : ℚ) * 100) = 0 := by
    rw [show ((0 : ℚ) * 100) = 0 from by norm_num]
    simp only [roundHalfEven]
    norm_num
  unfold pyRound2
  rw [h]
  norm_num

/-- The duplicate rate reported for a nonempty run. -/
lemma getStatistics_dup_pos (s : Stats) (h : s.total_processed ≠ 0) :
    (getStatistics s).duplicate_rate_percent =
      pyRound2 ((s.duplicates_detected : ℚ) / (s.total_processed : ℚ) * 100) := by
  simp [getStatistics, h]

/-- The error rate reported for a nonempty run. -/
lemma getStatistics_err_pos (s : Stats) (h : s.total_processed ≠ 0) :
    (getStatistics s).error_rate_percent =
      pyRound2 ((s.errors : ℚ) / (s.total_processed : ℚ) * 100) := by
  simp [getStatistics, h]

/-- C10 fails as stated: with 3 processed and 1 duplicate the reported
rate is the rounded 33.33, not `(1/3)*100`. -/
theorem C10_counterexample :
    0 < (Stats.mk 3 0 1 0).total_processed ∧
    (getStatistics (Stats.mk 3 0 1 0)).duplicate_rate_percent ≠
      (1 : ℚ) / 3 * 100 := by
  refine ⟨by norm_num, ?_⟩
  have hfl : ⌊((1 : ℚ) / 3 * 100 * 100)⌋ = 3333 := by
    rw [Int.floor_eq_iff]
    constructor <;> norm_num
  have hrnd : roundHalfEven ((1 : ℚ) / 3 * 100 * 100) = 3333 := by
    simp only [roundHalfEven, hfl]
    norm_num
  have hgs : (getStatistics (Stats.mk 3 0 1 0)).duplicate_rate_percent =
      pyRound2 ((1 : ℚ) / 3 * 100) := by
    rw [getStatistics_dup_pos (Stats.mk 3 0 1 0) (by norm_num)]
    norm_num
  rw [hgs]
  unfold pyRound2
  rw [hrnd]
  norm_num

/-- C10 (amended): `get_statistics` returns the four raw counters; both
rates are 0 when nothing was processed, and otherwise the percentage
ratios rounded to two decimal places (hence within 1/200 of the exact
ratios); no division error is possible. -/
theorem C10_statistics :
    ∀ s : Stats,
      (getStatistics s).total_processed = s.total_processed ∧
      (getStatistics s).total_stored = s.total_stored ∧
      (getStatistics s).duplicates_detected = s.duplicates_detected ∧
      (getStatistics s).errors = s.errors ∧
      (s.total_processed = 0 →
        (getStatistics s).duplicate_rate_percent = 0 ∧
        (getStatistics s).error_rate_percent = 0) ∧
      (0 < s.total_processed →
        (getStatistics s).duplicate_rate_percent =
          pyRound2 ((s.duplicates_detected : ℚ) /
            (s.total_processed : ℚ) * 100) ∧
        |(getStatistics s).duplicate_rate_percent -
          (s.duplicates_detected : ℚ) / (s.total_processed : ℚ) * 100| ≤
            1 / 200 ∧
        (getStatistics s).error_rate_percent =
          pyRound2 ((s.errors : ℚ) / (s.total_processed : ℚ) * 100) ∧
        |(getStatistics s).error_rate_percent -
          (s.errors : ℚ) / (s.total_processed : ℚ) * 100| ≤ 1 / 200) := by
  intro s
  refine ⟨rfl, rfl, rfl, rfl, ?_, ?_⟩
  · intro h
    constructor
    · rw [show (getStatistics s).duplicate_rate_percent = pyRound2 0 from
        by simp [getStatistics, h]]
      exact pyRound2_zero
    · rw [show (getStatistics s).error_rate_percent = pyRound2 0 from
        by simp [getStatistics, h]]
      exact pyRound2_zero
  · intro h
    have hne : s.total_processed ≠ 0 := by omega
    refine ⟨getStatistics_dup_pos s hne, ?_, getStatistics_err_pos s hne, ?_⟩
    · rw [getStatistics_dup_pos s hne]
      exact pyRound2_close _
    · rw [getStatistics_err_pos s hne]
      exact pyRound2_close _

/-- Witness for C10 at a concrete statistics record. -/
theorem C10_statistics_witness :
    0 < (Stats.mk 3 2 1 0).total_processed ∧
    |(getStatistics (Stats.mk 3 2 1 0)).duplicate_rate_percent -
      ((Stats.mk 3 2 1 0).duplicates_detected : ℚ) /
        ((Stats.mk 3 2 1 0).total_processed : ℚ) * 100| ≤ 1 / 200 :=
  ⟨by norm_num,
   ((C10_statistics (Stats.mk 3 2 1 0)).2.2.2.2.2 (by norm_num)).2.1⟩

/-- C3: `_check_duplicate` tries URL match, then content-hash-in-window
match, then (only with truthy coordinates) 5 km geospatial proximity with
the same window; it stops at the first match and answers (false, none)
when every applicable strategy misses; the default window is 48 h. -/
theorem C3_duplicate_strategies_ordered :
    defaultConfig.duplicateTimeWindowHours = 48 ∧
    ∀ (cfg : Config) (env : Env) (url : String) (cd : ContentData)
      (loc : Option Location),
      (∀ id rest, url ≠ "" → env.selectIdByUrl url = .ok (id :: rest) →
        checkDuplicate cfg env url cd loc = (true, some id)) ∧
      (∀ id rest, (url = "" ∨ env.selectIdByUrl url = .ok []) →
        env.selectIdByHashSince (generateContentHash cd)
          (env.now - (cfg.duplicateTimeWindowHours : Int) * 3600) =
          .ok (id :: rest) →
        checkDuplicate cfg env url cd loc = (true, some id)) ∧
      (∀ l lat lng id rest,
        loc = some l → l.latitude = some lat → l.longitude = some lng →
        lat ≠ 0 → lng ≠ 0 →
        (url = "" ∨ env.selectIdByUrl url = .ok []) →
        env.selectIdByHashSince (generateContentHash cd)
          (env.now - (cfg.duplicateTimeWindowHours : Int) * 3600) = .ok [] →
        env.rpcNearbyHazards lat lng 5 cfg.duplicateTimeWindowHours =
          .ok (id :: rest) →
        checkDuplicate cfg env url cd loc = (true, some id)) ∧
      ((url = "" ∨ env.selectIdByUrl url = .ok []) →
        env.selectIdByHashSince (generateContentHash cd)
          (env.now - (cfg.duplicateTimeWindowHours : Int) * 3600) = .ok [] →
        (∀ l lat lng, loc = some l → l.latitude = some lat →
          l.longitude = some lng → lat ≠ 0 → lng ≠ 0 →
          env.rpcNearbyHazards lat lng 5 cfg.duplicateTimeWindowHours =
            .ok []) →
        checkDuplicate cfg env url cd loc = (false, none)) := by
  refine ⟨rfl, ?_⟩
  intro cfg env url cd loc
  refine ⟨?_, ?_, ?_, ?_⟩
  · intro id rest hu hq
    unfold checkDuplicate checkDuplicateE
    simp [hu, hq]
  · intro id rest hu hq
    unfold checkDuplicate checkDuplicateE
    rcases hu with h | h
    · subst h; simp [hq]
    · by_cases hurl : url = ""
      · subst hurl; simp [hq]
      · simp [hurl, h, hq]
  · intro l lat lng id rest hloc hlat hlng hlat0 hlng0 hu hq hrpc
    subst hloc
    unfold checkDuplicate checkDuplicateE
    rcases hu with h | h
    · subst h; simp [hq, hlat, hlng, hlat0, hlng0, hrpc]
    · by_cases hurl : url = ""
      · subst hurl; simp [hq, hlat, hlng, hlat0, hlng0, hrpc]
      · simp [hurl, h, hq, hlat, hlng, hlat0, hlng0, hrpc]
  · intro hu hq hgeo
    unfold checkDuplicate checkDuplicateE
    rcases loc with _ | l
    · rcases hu with h | h
      · subst h; simp [hq]
      · by_cases hurl : url = ""
        · subst hurl; simp [hq]
        · simp [hurl, h, hq]
    · rcases hla : l.latitude with _ | lat
      · rcases hu with h | h
        · subst h; simp [hq, hla]
        · by_cases hurl : url = ""
          · subst hurl; simp [hq, hla]
          · simp [hurl, h, hq, hla]
      · rcases hlg : l.longitude with _ | lng
        · rcases hu with h | h
          · subst h; simp [hq, hla, hlg]
          · by_cases hurl : url = ""
            · subst hurl; simp [hq, hla, hlg]
            · simp [hurl, h, hq, hla, hlg]
        · by_cases hz : lat ≠ 0 ∧ lng ≠ 0
          · have hrpc := hgeo l lat lng rfl hla hlg hz.1 hz.2
            rcases hu with h | h
            · subst h; simp [hq, hla, hlg, hz, hrpc]
            · by_cases hurl : url = ""
              · subst hurl; simp [hq, hla, hlg, hz, hrpc]
              · simp [hurl, h, hq, hla, hlg, hz, hrpc]
          · rcases hu with h | h
            · subst h; simp [hq, hla, hlg, hz]
            · by_cases hurl : url = ""
              · subst hurl; simp [hq, hla, hlg, hz]
              · simp [hurl, h, hq, hla, hlg, hz]

/-- Witness for C3: each strategy observed at a concrete store, including
the short-circuit (in the URL-hit store the later lookups would fail if
consulted) and the all-miss answer. -/
theorem C3_duplicate_strategies_ordered_witness :
    checkDuplicate defaultConfig envUrlHit "http://news.example/a"
      (extractContent entryFlood) (some locManila) = (true, some "DUP-URL") ∧
    checkDuplicate defaultConfig envHashHit "http://news.example/a"
      (extractContent entryFlood) (some locManila) = (true, some "DUP-HASH") ∧
    checkDuplicate defaultConfig envGeoHit "http://news.example/a"
      (extractContent entryFlood) (some locManila) = (true, some "DUP-GEO") ∧
    checkDuplicate defaultConfig baseEnv "http://news.example/a"
      (extractContent entryFlood) (some locManila) = (false, none) := by
  refine ⟨?_, ?_, ?_, ?_⟩
  · exact (C3_duplicate_strategies_ordered.2 defaultConfig envUrlHit
      "http://news.example/a" (extractContent entryFlood)
      (some locManila)).1 "DUP-URL" [] (by decide) rfl
  · exact (C3_duplicate_strategies_ordered.2 defaultConfig envHashHit
      "http://news.example/a" (extractContent entryFlood)
      (some locManila)).2.1 "DUP-HASH" [] (Or.inr rfl) rfl
  · exact (C3_duplicate_strategies_ordered.2 defaultConfig envGeoHit
      "http://news.example/a" (extractContent entryFlood)
      (some locManila)).2.2.1 locManila (mkRat 145995 10000)
      (mkRat 1209842 10000) "DUP-GEO" [] rfl rfl rfl (by decide) (by decide)
      (Or.inr rfl) rfl rfl
  · exact (C3_duplicate_strategies_ordered.2 defaultConfig baseEnv
      "http://news.example/a" (extractContent entryFlood)
      (some locManila)).2.2.2 (Or.inr rfl) rfl
      (fun l lat lng _ _ _ _ _ => rfl)

/-- C4: a persisted row carries `validated = (rss_threshold ≤ score)` with
an inclusive boundary, and exactly the auto-validated rows carry a
timestamp and a non-empty note. -/
theorem C4_auto_validation :
    ∀ (env : Env) (c : Cache) (e : Entry) (cd : ContentData)
      (cls : Classification) (locations : List Location) (feedUrl : String)
      (row : HazardRow) (c2 : Cache),
      buildHazardRow env c e cd cls locations feedUrl = (some row, c2) →
      (row.validated = decide ((getThresholds env c).fst.fst ≤ cls.score)) ∧
      (cls.score = (getThresholds env c).fst.fst → row.validated = true) ∧
      (row.validated = true → row.validated_at = some env.now ∧
        ∃ s, row.validation_notes = some s ∧ 0 < s.length) ∧
      (row.validated = false →
        row.validated_at = none ∧ row.validation_notes = none) := by
  intro env c e cd cls locations feedUrl row c2 h
  unfold buildHazardRow at h
  rcases hfl : firstUsableLoc locations with _ | pl
  · rw [hfl] at h
    simp at h
  · rw [hfl] at h
    dsimp only at h
    by_cases hb : rssBoundsOk (pl.latitude.getD 0) (pl.longitude.getD 0) = true
    · rw [if_pos hb] at h
      rcases hgt : getThresholds env c with ⟨⟨rssThr, citThr⟩, cc⟩
      rw [hgt] at h
      simp only at h
      rw [Prod.mk.injEq] at h
      obtain ⟨h1, h2⟩ := h
      injection h1 with h1
      subst h1
      refine ⟨rfl, ?_, ?_, ?_⟩
      · intro hsc
        simp only at hsc
        simp only
        rw [hsc]
        simp
      · intro hv
        simp only at hv
        refine ⟨by simp [hv],
          ⟨"Auto-validated (confidence " ++ toString cls.score ++ " >= " ++
            toString rssThr ++ ")", by simp [hv], ?_⟩⟩
        have h27 : 0 < "Auto-validated (confidence ".length := by decide
        simp only [String.length_append]
        omega
      · intro hv
        simp only at hv
        exact ⟨by simp [hv], by simp [hv]⟩
    · rw [if_neg hb] at h
      simp at h

/-- Witness for C4: with thresholds cached at (0.70, 0.50) and a score of
exactly 0.70, the persisted row auto-validates (inclusive boundary) and
carries a validation timestamp. -/
theorem C4_auto_validation_witness :
    c4RowPair.fst.map HazardRow.validated = some true ∧
    c4RowPair.fst.map HazardRow.validated_at = some (some 1700000000) := by
  have hf : c4RowPair.fst.isSome = true := rfl
  rcases hpair : c4RowPair with ⟨orow, cc⟩
  rcases orow with _ | row
  · rw [hpair] at hf
    simp at hf
  · have hbuild : buildHazardRow baseEnv cacheDefaults entryFlood
        (extractContent entryFlood) clsFlood07 [locManila]
        "http://feed.example/rss" = (some row, cc) := hpair
    have h := C4_auto_validation baseEnv cacheDefaults entryFlood
      (extractContent entryFlood) clsFlood07 [locManila]
      "http://feed.example/rss" row cc hbuild
    have hthr : (getThresholds baseEnv cacheDefaults).fst.fst =
        mkRat 7 10 := rfl
    have hsc : clsFlood07.score =
        (getThresholds baseEnv cacheDefaults).fst.fst := by
      rw [hthr]
      rfl
    have hval : row.validated = true := h.2.1 hsc
    have hat : row.validated_at = some baseEnv.now := (h.2.2.1 hval).1
    have hnow : baseEnv.now = 1700000000 := rfl
    simp [hval, hat, hnow]

/-- A location selected by `firstUsableLoc` is a member of the list and
has truthy coordinates. -/
lemma firstUsableLoc_mem :
    ∀ (ls : List Location) (pl : Location), firstUsableLoc ls = some pl →
      pl ∈ ls ∧ (truthyCoord pl.latitude && truthyCoord pl.longitude) = true := by
  intro ls
  induction ls with
  | nil => intro pl h; simp [firstUsableLoc] at h
  | cons l t ih =>
    intro pl h
    unfold firstUsableLoc at h
    by_cases hc : (truthyCoord l.latitude && truthyCoord l.longitude) = true
    · rw [if_pos hc] at h
      injection h with h
      subst h
      exact ⟨List.mem_cons_self l t, hc⟩
    · rw [if_neg hc] at h
      obtain ⟨hmem, husable⟩ := ih pl h
      exact ⟨List.mem_cons_of_mem l hmem, husable⟩

/-- When no location has truthy coordinates, none is selected. -/
lemma firstUsableLoc_none :
    ∀ ls : List Location,
      (∀ l ∈ ls, (truthyCoord l.latitude && truthyCoord l.longitude) = false) →
      firstUsableLoc ls = none := by
  intro ls
  induction ls with
  | nil => intro _; rfl
  | cons l t ih =>
    intro h
    unfold firstUsableLoc
    rw [if_neg (by simp [h l (List.mem_cons_self l t)])]
    exact ih (fun x hx => h x (List.mem_cons_of_mem l hx))

/-- Without a usable location nothing is built. -/
lemma buildHazardRow_none_of_noloc (env : Env) (c : Cache) (e : Entry)
    (cd : ContentData) (cls : Classification) (locs : List Location)
    (feedUrl : String) (h : firstUsableLoc locs = none) :
    buildHazardRow env c e cd cls locs feedUrl = (none, c) := by
  unfold buildHazardRow
  rw [h]

/-- Without a usable location nothing is saved. -/
lemma saveHazardToDb_none_of_noloc (env : Env) (c : Cache) (e : Entry)
    (cd : ContentData) (cls : Classification) (locs : List Location)
    (feedUrl : String) (h : firstUsableLoc locs = none) :
    saveHazardToDb env c e cd cls locs feedUrl = (none, c) := by
  unfold saveHazardToDb
  rw [buildHazardRow_none_of_noloc env c e cd cls locs feedUrl h]

/-- C2 fails as stated: an entry classified as hazard whose only extracted
location has no usable coordinates is not persisted — but the failed save
IS counted in the errors statistic (it is not silently skipped). -/
theorem C2_counterexample :
    (envNoCoords.classify (extractContent entryFlood).text
        defaultConfig.classificationThreshold).is_hazard = true ∧
    (envNoCoords.extractLocations (extractContent entryFlood).text).all
      (fun l => !(truthyCoord l.latitude && truthyCoord l.longitude)) =
      true ∧
    (processFeed defaultConfig envNoCoords
        { stats := initStats, cache := cacheEmpty }
        "http://feed.example/rss").1.items_added = 0 ∧
    (processFeed defaultConfig envNoCoords
        { stats := initStats, cache := cacheEmpty }
        "http://feed.example/rss").1.hazards_saved = [] ∧
    (processFeed defaultConfig envNoCoords
        { stats := initStats, cache := cacheEmpty }
        "http://feed.example/rss").2.stats.errors = 1 :=
  ⟨rfl, rfl, rfl, rfl, rfl⟩

/-- C2 (amended): an entry is persisted only if it is classified as a
hazard and some extracted location has truthy coordinates; a hazard entry
with zero extracted locations is silently skipped (state untouched, no
error counted); a hazard entry whose locations all lack usable coordinates
is not persisted either, but its failed save increments the errors
statistic. -/
theorem C2_hazard_candidate_gating :
    ∀ (cfg : Config) (env : Env) (c : Cache) (e : Entry) (feedUrl : String),
      (∀ summary c2,
        processEntry cfg env c e feedUrl = (.saved summary, c2) →
        (env.classify (extractContent e).text
            cfg.classificationThreshold).is_hazard = true ∧
        ∃ l, l ∈ env.extractLocations (extractContent e).text ∧
          (truthyCoord l.latitude && truthyCoord l.longitude) = true) ∧
      (pyStrip (extractContent e).text ≠ "" →
        (env.classify (extractContent e).text
            cfg.classificationThreshold).is_hazard = true →
        env.extractLocations (extractContent e).text = [] →
        processEntry cfg env c e feedUrl = (.noLocations, c) ∧
        ∀ s : Stats, applyStats .noLocations s = s) ∧
      (pyStrip (extractContent e).text ≠ "" →
        (env.classify (extractContent e).text
            cfg.classificationThreshold).is_hazard = true →
        env.extractLocations (extractContent e).text ≠ [] →
        (∀ l ∈ env.extractLocations (extractContent e).text,
          (truthyCoord l.latitude && truthyCoord l.longitude) = false) →
        (checkDuplicate cfg env e.link (extractContent e)
          (env.extractLocations (extractContent e).text).head?).1 = false →
        processEntry cfg env c e feedUrl = (.saveFailed, c) ∧
        ∀ s : Stats, applyStats .saveFailed s =
          { s with errors := s.errors + 1 }) := by
  intro cfg env c e feedUrl
  refine ⟨?_, ?_, ?_⟩
  · intro summary c2 hp
    unfold processEntry at hp
    by_cases hempty : pyStrip (extractContent e).text = ""
    · rw [if_pos hempty] at hp
      simp at hp
    · rw [if_neg hempty] at hp
      by_cases hhaz : (env.classify (extractContent e).text
          cfg.classificationThreshold).is_hazard = true
      · rw [if_pos hhaz] at hp
        rcases hlocs : env.extractLocations (extractContent e).text with
          _ | ⟨l0, rest⟩
        · rw [hlocs] at hp
          simp at hp
        · rw [hlocs] at hp
          dsimp only at hp
          rcases hdup : checkDuplicate cfg env e.link (extractContent e)
              (some l0) with ⟨b, oid⟩
          rw [hdup] at hp
          rcases b
          · rcases hsave : saveHazardToDb env c e (extractContent e)
                (env.classify (extractContent e).text
                  cfg.classificationThreshold) (l0 :: rest) feedUrl with
              ⟨osave, c3⟩
            rw [hsave] at hp
            rcases osave with _ | id
            · simp at hp
            · rcases hfl : firstUsableLoc (l0 :: rest) with _ | pl
              · rw [saveHazardToDb_none_of_noloc env c e (extractContent e)
                  (env.classify (extractContent e).text
                    cfg.classificationThreshold) (l0 :: rest) feedUrl hfl]
                  at hsave
                simp at hsave
              · obtain ⟨hmem, husable⟩ := firstUsableLoc_mem (l0 :: rest) pl hfl
                exact ⟨hhaz, pl, hmem, husable⟩
          · simp at hp
      · rw [if_neg hhaz] at hp
        simp at hp
  · intro hempty hhaz hlocs
    unfold processEntry
    rw [if_neg hempty, if_pos hhaz, hlocs]
    exact ⟨rfl, fun s => rfl⟩
  · intro hempty hhaz hne hunusable hdupf
    unfold processEntry
    rw [if_neg hempty, if_pos hhaz]
    rcases hlocs : env.extractLocations (extractContent e).text with
      _ | ⟨l0, rest⟩
    · exact absurd hlocs hne
    · dsimp only
      rw [hlocs] at hdupf
      rcases hdup : checkDuplicate cfg env e.link (extractContent e)
          (some l0) with ⟨b, oid⟩
      simp only [List.head?_cons, hdup] at hdupf
      subst hdupf
      have hfl : firstUsableLoc (l0 :: rest) = none := by
        apply firstUsableLoc_none
        intro l hl
        apply hunusable
        rw [hlocs]
        exact hl
      rw [saveHazardToDb_none_of_noloc env c e (extractContent e)
        (env.classify (extractContent e).text cfg.classificationThreshold)
        (l0 :: rest) feedUrl hfl]
      exact ⟨rfl, fun s => rfl⟩

/-- Witness for C2: a hazard-classified entry with zero extracted
locations is skipped with the state untouched. -/
theorem C2_hazard_candidate_gating_witness :
    processEntry defaultConfig envHazNoLoc cacheEmpty entryFlood
      "http://feed.example/rss" = (.noLocations, cacheEmpty) :=
  ((C2_hazard_candidate_gating defaultConfig envHazNoLoc cacheEmpty
    entryFlood "http://feed.example/rss").2.1 (by decide) rfl rfl).1

/-- One entry step produces the same feed counters and cache from any two
states sharing a threshold cache (the statistics counters cannot influence
a feed's visible result). -/
lemma entryStep_stats_free (cfg : Config) (env : Env) (feedUrl : String)
    (e : Entry) (a : FeedAcc) (st1 st2 : PState)
    (hc : st1.cache = st2.cache) :
    (entryStep cfg env feedUrl (a, st1) e).1 =
      (entryStep cfg env feedUrl (a, st2) e).1 ∧
    (entryStep cfg env feedUrl (a, st1) e).2.cache =
      (entryStep cfg env feedUrl (a, st2) e).2.cache := by
  unfold entryStep
  dsimp only
  rw [hc]
  rcases processEntry cfg env st2.cache e feedUrl with ⟨out, c2⟩
  exact ⟨rfl, rfl⟩

/-- The entry loop as a whole is insensitive to the incoming statistics. -/
lemma foldl_entryStep_stats_free (cfg : Config) (env : Env)
    (feedUrl : String) :
    ∀ (entries : List Entry) (a : FeedAcc) (st1 st2 : PState),
      st1.cache = st2.cache →
      (entries.foldl (entryStep cfg env feedUrl) (a, st1)).1 =
        (entries.foldl (entryStep cfg env feedUrl) (a, st2)).1 ∧
      (entries.foldl (entryStep cfg env feedUrl) (a, st1)).2.cache =
        (entries.foldl (entryStep cfg env feedUrl) (a, st2)).2.cache := by
  intro entries
  induction entries with
  | nil => intro a st1 st2 hc; exact ⟨rfl, hc⟩
  | cons e t ih =>
    intro a st1 st2 hc
    simp only [List.foldl_cons]
    obtain ⟨h1, h2⟩ := entryStep_stats_free cfg env feedUrl e a st1 st2 hc
    rcases hs1 : entryStep cfg env feedUrl (a, st1) e with ⟨a1, st1b⟩
    rcases hs2 : entryStep cfg env feedUrl (a, st2) e with ⟨a2, st2b⟩
    rw [hs1, hs2] at h1 h2
    dsimp only at h1 h2
    subst h1
    exact ih a1 st1b st2b h2

/-- A feed's visible result depends on the state only through the
threshold cache. -/
lemma processFeed_result_stats_free (cfg : Config) (env : Env)
    (st1 st2 : PState) (u : String) (hc : st1.cache = st2.cache) :
    (processFeed cfg env st1 u).1 = (processFeed cfg env st2 u).1 := by
  unfold processFeed
  rcases env.fetchFeed u with er | feed
  · rfl
  · dsimp only
    obtain ⟨h1, _⟩ := foldl_entryStep_stats_free cfg env u feed.entries
      { items_processed := 0, items_added := 0, duplicates_detected := 0,
        hazards_saved := [] } st1 st2 hc
    rcases hf1 : feed.entries.foldl (entryStep cfg env u)
        ({ items_processed := 0, items_added := 0, duplicates_detected := 0,
           hazards_saved := [] }, st1) with ⟨acc1, sta⟩
    rcases hf2 : feed.entries.foldl (entryStep cfg env u)
        ({ items_processed := 0, items_added := 0, duplicates_detected := 0,
           hazards_saved := [] }, st2) with ⟨acc2, stb⟩
    rw [hf1, hf2] at h1
    dsimp only at h1
    subst h1
    rfl

/-- Every feed result is marked either success or error. -/
lemma processFeed_status (cfg : Config) (env : Env) (st : PState)
    (u : String) :
    (processFeed cfg env st u).1.status = "success" ∨
    (processFeed cfg env st u).1.status = "error" := by
  unfold processFeed
  rcases env.fetchFeed u with er | feed
  · right; rfl
  · dsimp only
    rcases hf : feed.entries.foldl (entryStep cfg env u)
        ({ items_processed := 0, items_added := 0, duplicates_detected := 0,
           hazards_saved := [] }, st) with ⟨acc, st2⟩
    left; rfl

/-- `feedStep` appends exactly the processed feed's result. -/
lemma feedStep_eq (cfg : Config) (env : Env) (p : List FeedResult × PState)
    (u : String) :
    feedStep cfg env p u =
      (p.1 ++ [(processFeed cfg env p.2 u).1], (processFeed cfg env p.2 u).2) := by
  unfold feedStep
  rcases processFeed cfg env p.2 u with ⟨r, st2⟩
  rfl

/-- The run loop produces one result per feed, each marked success or
error. -/
lemma foldl_feedStep_results (cfg : Config) (env : Env) :
    ∀ (feeds : List String) (acc : List FeedResult) (st : PState),
      (feeds.foldl (feedStep cfg env) (acc, st)).1.length =
        acc.length + feeds.length ∧
      ∀ r ∈ (feeds.foldl (feedStep cfg env) (acc, st)).1,
        r ∈ acc ∨ r.status = "success" ∨ r.status = "error" := by
  intro feeds
  induction feeds with
  | nil =>
    intro acc st
    exact ⟨by simp, fun r hr => Or.inl hr⟩
  | cons u t ih =>
    intro acc st
    simp only [List.foldl_cons]
    rw [feedStep_eq cfg env (acc, st) u]
    obtain ⟨ihlen, ihmem⟩ := ih (acc ++ [(processFeed cfg env st u).1])
      (processFeed cfg env st u).2
    constructor
    · rw [ihlen]
      simp
      omega
    · intro r hr
      rcases ihmem r hr with hin | hst
      · rcases List.mem_append.mp hin with h | h
        · exact Or.inl h
        · right
          rw [List.mem_singleton.mp h]
          exact processFeed_status cfg env st u
      · exact Or.inr hst

/-- C6: a feed whose fetch raises yields the structured error result with
zero items and the raised message; the next feed in the same run is
processed exactly as it would be with the same threshold cache alone; and
a run always returns one success-or-error result per configured feed —
nothing escapes `process_all_feeds`. -/
theorem C6_feed_failure_isolation :
    ∀ (cfg : Config) (env : Env) (st : PState) (urlA urlB msg : String),
      env.fetchFeed urlA = .error msg →
      (processFeed cfg env st urlA).1 =
        { feed_url := urlA, status := "error", items_processed := 0,
          items_added := 0, duplicates_detected := 0, hazards_saved := [],
          error_message := some msg } ∧
      (msg ≠ "" → (processFeed cfg env st urlA).1.error_message ≠ some "") ∧
      (processAllFeeds cfg env st [urlA, urlB]).1 =
        [{ feed_url := urlA, status := "error", items_processed := 0,
           items_added := 0, duplicates_detected := 0, hazards_saved := [],
           error_message := some msg },
         (processFeed cfg env { stats := initStats, cache := st.cache }
           urlB).1] ∧
      (∀ feeds : List String, feeds ≠ [] →
        (processAllFeeds cfg env st feeds).1.length = feeds.length ∧
        ∀ r ∈ (processAllFeeds cfg env st feeds).1,
          r.status = "success" ∨ r.status = "error") := by
  intro cfg env st urlA urlB msg hfA
  have hA : ∀ st0 : PState, processFeed cfg env st0 urlA =
      ({ feed_url := urlA, status := "error", items_processed := 0,
         items_added := 0, duplicates_detected := 0, hazards_saved := [],
         error_message := some msg },
       { stats := { st0.stats with errors := st0.stats.errors + 1 },
         cache := st0.cache }) := by
    intro st0
    unfold processFeed
    rw [hfA]
  refine ⟨?_, ?_, ?_, ?_⟩
  · rw [hA st]
  · intro hmsg
    rw [hA st]
    simp [hmsg]
  · unfold processAllFeeds
    rw [if_neg (by simp : ¬([urlA, urlB] = ([] : List String)))]
    simp only [List.foldl_cons, List.foldl_nil]
    rw [feedStep_eq, feedStep_eq]
    dsimp only
    rw [hA]
    dsimp only
    rw [List.nil_append]
    simp only [List.singleton_append, List.cons.injEq, and_true, true_and]
    exact processFeed_result_stats_free cfg env _ _ urlB rfl
  · intro feeds hne
    unfold processAllFeeds
    rw [if_neg hne]
    obtain ⟨hlen, hmem⟩ := foldl_feedStep_results cfg env feeds []
      { st with stats := initStats }
    refine ⟨by rw [hlen]; simp, ?_⟩
    intro r hr
    rcases hmem r hr with hin | hst
    · simp at hin
    · exact hst

/-- Witness for C6: a 404 feed yields the structured error result and the
second feed of the run is processed normally. -/
theorem C6_feed_failure_isolation_witness :
    (processFeed defaultConfig envFeedAB
        { stats := initStats, cache := cacheEmpty }
        "http://a.example/feed").1 =
      { feed_url := "http://a.example/feed", status := "error",
        items_processed := 0, items_added := 0, duplicates_detected := 0,
        hazards_saved := [], error_message := some "404 Not Found" } ∧
    (processAllFeeds defaultConfig envFeedAB
        { stats := initStats, cache := cacheEmpty }
        ["http://a.example/feed", "http://b.example/feed"]).1 =
      [{ feed_url := "http://a.example/feed", status := "error",
         items_processed := 0, items_added := 0, duplicates_detected := 0,
         hazards_saved := [], error_message := some "404 Not Found" },
       (processFeed defaultConfig envFeedAB
         { stats := initStats, cache := cacheEmpty }
         "http://b.example/feed").1] := by
  have h := C6_feed_failure_isolation defaultConfig envFeedAB
    { stats := initStats, cache := cacheEmpty } "http://a.example/feed"
    "http://b.example/feed" "404 Not Found" rfl
  exact ⟨h.1, h.2.2.1⟩
